import Mathlib

/-!
Shallow embedding of the SVHN dataset adapter
(uncertainty_baselines/datasets/svhn.py) and proofs of its specified
properties.  Images are modelled as finite grids of 3-channel pixels and
floating-point arithmetic is modelled exactly over the rationals.
-/

namespace UncertaintyBaselines

/-- A raw example served by the catalog: an integer-encoded image (a list of
rows, each row a list of pixels, each pixel a 3-channel vector of 8-bit
values) and an integer class label. -/
structure RawExample where
  image : List (List (Fin 3 → ℕ))
  label : ℤ

/-- The content of the external dataset catalog for svhn_cropped: the two
named partitions this adapter touches. -/
structure Catalog where
  train : List RawExample
  test : List RawExample

/-- Per-partition example counts, as exposed by the catalog metadata object
(tfds DatasetInfo, field splits[name].num_examples). -/
structure CatalogInfo where
  trainCount : ℕ
  testCount : ℕ
deriving DecidableEq

/-- The metadata of a catalog: the number of examples in each partition. -/
def Catalog.info (c : Catalog) : CatalogInfo :=
  ⟨c.train.length, c.test.length⟩

/-- Modelled from the spec: the tfds storage environment, mapping an optional
data_dir override to the catalog visible at that storage location (none is
the default local location).  tfds.load with with_info=True returns the
loaded lazy partitions together with their metadata. -/
def tfdsLoadWithInfo (env : Option String → Catalog)
    (dataDir : Option String) : Catalog × CatalogInfo :=
  (env dataDir, (env dataDir).info)

/-- The adapter state recorded by SvhnDataset.__init__ (fields stored on the
instance directly or through the base-class constructor). -/
structure SvhnDataset where
  normalize_by_cifar : Bool
  name : String
  num_train_examples : ℤ
  num_validation_examples : ℤ
  num_test_examples : ℤ
  batch_size : ℕ
  eval_batch_size : ℕ
  shuffle_buffer_size : Option ℕ
  num_parallel_parser_calls : ℕ
  data_dir : Option String
deriving DecidableEq

/-- SvhnDataset.__init__: performs one catalog query with no data_dir
argument (line 53 passes only the dataset name and with_info=True), reads the
train and test example counts from the returned metadata, and records the
fixed train count 50000, the computed validation count train_count - 50000
(unguarded subtraction over the integers) and the catalog test count,
together with the batching configuration.  It is total: no exception path
exists in the constructor itself. -/
def SvhnDataset.init (env : Option String → Catalog)
    (batch_size eval_batch_size : ℕ) (shuffle_buffer_size : Option ℕ)
    (num_parallel_parser_calls : ℕ) (data_dir : Option String)
    (normalize_by_cifar : Bool) : SvhnDataset :=
  let info := (tfdsLoadWithInfo env none).2
  { normalize_by_cifar := normalize_by_cifar
    name := "svhn_cropped"
    num_train_examples := 50000
    num_validation_examples := (info.trainCount : ℤ) - 50000
    num_test_examples := (info.testCount : ℤ)
    batch_size := batch_size
    eval_batch_size := eval_batch_size
    shuffle_buffer_size := shuffle_buffer_size
    num_parallel_parser_calls := num_parallel_parser_calls
    data_dir := data_dir }

/-- Modelled from the spec: the Split enumeration of the base module (TRAIN,
VAL, TEST).  The `other` constructor stands for any further runtime value a
dynamically typed caller could pass to read_examples, carrying the printed
representation of that value. -/
inductive SplitValue where
  | TRAIN
  | VAL
  | TEST
  | other (r : String)
deriving DecidableEq

/-- The printed representation of a split argument, as interpolated into the
error message by str.format. -/
def SplitValue.reprStr : SplitValue → String
  | .TRAIN => "Split.TRAIN"
  | .VAL => "Split.VAL"
  | .TEST => "Split.TEST"
  | .other r => r

/-- Resolution of one absolute bound of a tfds ReadInstruction: a negative
bound counts from the end of the partition. -/
def resolveBound (len : ℕ) (b : ℤ) : ℕ :=
  (if b < 0 then (len : ℤ) + b else b).toNat

/-- Modelled from the spec: the catalog range selector
(tfds.core.ReadInstruction with unit abs) applied to a partition — the
subrange [start, stop) of the partition, where a missing bound defaults to
the corresponding end and a negative bound counts from the end. -/
def readInstruction (part : List RawExample)
    (fromBound toBound : Option ℤ) : List RawExample :=
  let start := match fromBound with
    | none => 0
    | some b => resolveBound part.length b
  let stop := match toBound with
    | none => part.length
    | some b => resolveBound part.length b
  (part.take stop).drop start

/-- SvhnDataset._read_examples: dispatches on the split value; TRAIN and VAL
carve the catalog train partition with absolute-offset ReadInstructions built
from -num_validation_examples, TEST loads the catalog test partition entire,
and any other value raises ValueError with a message embedding the printed
value. -/
def SvhnDataset.read_examples (d : SvhnDataset) (cat : Catalog) :
    SplitValue → Except String (List RawExample)
  | .TRAIN =>
      .ok (readInstruction cat.train none (some (-d.num_validation_examples)))
  | .VAL =>
      .ok (readInstruction cat.train (some (-d.num_validation_examples)) none)
  | .TEST => .ok cat.test
  | s => .error ("Invalid dataset split in _read_examples: " ++ s.reprStr)

/-- tf.image.convert_image_dtype applied to an 8-bit integer image: each
channel value v is scaled to v / 255, modelled exactly over the rationals. -/
def convert_image_dtype (image : List (List (Fin 3 → ℕ))) :
    List (List (Fin 3 → ℚ)) :=
  image.map (fun row => row.map (fun px => fun i => (px i : ℚ) / 255))

/-- tf.cast of an integer label to int32: the value is reduced into the
signed 32-bit range by wrapping modulo 2^32. -/
def castInt32 (x : ℤ) : ℤ :=
  (x + 2 ^ 31) % 2 ^ 32 - 2 ^ 31

/-- The fixed per-channel CIFAR mean vector of the source. -/
def cifarMean : Fin 3 → ℚ := ![0.4914, 0.4822, 0.4465]

/-- The fixed per-channel CIFAR standard-deviation vector of the source. -/
def cifarStd : Fin 3 → ℚ := ![0.2023, 0.1994, 0.2010]

/-- The normalization stage image = (image - mean) / std of the source,
broadcast over rows and columns and aligned per channel. -/
def normalizeCifar (image : List (List (Fin 3 → ℚ))) :
    List (List (Fin 3 → ℚ)) :=
  image.map (fun row => row.map (fun px => fun i =>
    (px i - cifarMean i) / cifarStd i))

/-- A tensor value stored in the parsed-example mapping. -/
inductive TensorValue where
  | image (t : List (List (Fin 3 → ℚ)))
  | intval (n : ℤ)
deriving DecidableEq

/-- The inner function of SvhnDataset._create_process_example_fn: converts
the image to floats in [0, 1], casts the label to int32, optionally applies
the CIFAR normalization, and packages the result as a mapping with the keys
features and labels (a Python dict, modelled as an ordered key-value list). -/
def example_parser_fn (normalize_by_cifar : Bool) (ex : RawExample) :
    List (String × TensorValue) :=
  let image := convert_image_dtype ex.image
  let label := castInt32 ex.label
  let image2 := if normalize_by_cifar then normalizeCifar image else image
  [("features", TensorValue.image image2), ("labels", TensorValue.intval label)]

/-- SvhnDataset._create_process_example_fn: deletes its split argument and
returns the parsing function, closed over only the normalization flag of the
instance. -/
def SvhnDataset.create_process_example_fn (d : SvhnDataset)
    (split : SplitValue) : RawExample → List (String × TensorValue) :=
  fun ex => example_parser_fn d.normalize_by_cifar ex

/-! Helper lemmas about the range selector. -/

lemma readInstruction_neg_to (part : List RawExample) (k : ℤ) (h0 : 0 < k)
    (hT : k ≤ (part.length : ℤ)) :
    readInstruction part none (some (-k)) = part.take (part.length - k.toNat) := by
  unfold readInstruction resolveBound
  dsimp only
  have hneg : -k < 0 := by omega
  rw [if_pos hneg]
  have : ((part.length : ℤ) + -k).toNat = part.length - k.toNat := by omega
  rw [this, List.drop_zero]

lemma readInstruction_neg_from (part : List RawExample) (k : ℤ) (h0 : 0 < k)
    (hT : k ≤ (part.length : ℤ)) :
    readInstruction part (some (-k)) none = part.drop (part.length - k.toNat) := by
  unfold readInstruction resolveBound
  dsimp only
  have hneg : -k < 0 := by omega
  rw [if_pos hneg]
  have : ((part.length : ℤ) + -k).toNat = part.length - k.toNat := by omega
  rw [this, List.take_length]

lemma readInstruction_zero_to (part : List RawExample) :
    readInstruction part none (some (-(0 : ℤ))) = [] := by
  unfold readInstruction resolveBound
  simp

lemma readInstruction_zero_from (part : List RawExample) :
    readInstruction part (some (-(0 : ℤ))) none = part := by
  unfold readInstruction resolveBound
  simp

/-- C2: construction records a train count fixed at 50000, a validation
count equal to the catalog train count minus 50000, and the catalog test
count; the subtraction is unguarded, so a catalog train count below 50000
yields a negative recorded validation count and construction still returns
normally (SvhnDataset.init is a total function). -/
theorem init_records_counts (env : Option String → Catalog)
    (bs ebs npc : ℕ) (sbs : Option ℕ) (dd : Option String) (nf : Bool) :
    (SvhnDataset.init env bs ebs sbs npc dd nf).num_train_examples = 50000 ∧
    (SvhnDataset.init env bs ebs sbs npc dd nf).num_validation_examples =
      ((env none).train.length : ℤ) - 50000 ∧
    (SvhnDataset.init env bs ebs sbs npc dd nf).num_test_examples =
      ((env none).test.length : ℤ) ∧
    ((env none).train.length < 50000 →
      (SvhnDataset.init env bs ebs sbs npc dd nf).num_validation_examples < 0) := by
  refine ⟨rfl, rfl, rfl, fun h => ?_⟩
  show ((env none).train.length : ℤ) - 50000 < 0
  omega

/-- Concrete instance of init_records_counts on a catalog with a single
train example, exhibiting the negative recorded validation count. -/
theorem init_records_counts_witness :
    (SvhnDataset.init (fun _ => ⟨[⟨[], 0⟩], []⟩) 1 1 none 64 none
        false).num_train_examples = 50000 ∧
    (SvhnDataset.init (fun _ => ⟨[⟨[], 0⟩], []⟩) 1 1 none 64 none
        false).num_validation_examples = (1 : ℤ) - 50000 ∧
    (SvhnDataset.init (fun _ => ⟨[⟨[], 0⟩], []⟩) 1 1 none 64 none
        false).num_test_examples = (0 : ℤ) ∧
    (1 < 50000 →
      (SvhnDataset.init (fun _ => ⟨[⟨[], 0⟩], []⟩) 1 1 none 64 none
          false).num_validation_examples < 0) :=
  init_records_counts (fun _ => ⟨[⟨[], 0⟩], []⟩) 1 1 64 none none false

/-- C3: read_examples on any value outside the Split enumeration returns a
ValueError whose message is a fixed prefix followed by the printed
representation of the offending value (so the message contains that
representation), and returns no sequence; on each of the three enumeration
members it succeeds, returning a sequence. -/
theorem read_examples_invalid_split (d : SvhnDataset) (cat : Catalog) :
    (∀ r : String, d.read_examples cat (.other r) =
      .error ("Invalid dataset split in _read_examples: " ++ r)) ∧
    (d.read_examples cat .TRAIN).isOk = true ∧
    (d.read_examples cat .VAL).isOk = true ∧
    (d.read_examples cat .TEST).isOk = true :=
  ⟨fun _ => rfl, rfl, rfl, rfl⟩

/-- C6: construction interacts with the catalog only through its metadata:
two storage environments whose default-location catalogs agree on per-
partition example counts (but may hold entirely different example data)
produce identical adapter states. -/
theorem init_reads_only_metadata (env1 env2 : Option String → Catalog)
    (bs ebs npc : ℕ) (sbs : Option ℕ) (dd : Option String) (nf : Bool)
    (h : (env1 none).info = (env2 none).info) :
    SvhnDataset.init env1 bs ebs sbs npc dd nf =
      SvhnDataset.init env2 bs ebs sbs npc dd nf := by
  unfold SvhnDataset.init tfdsLoadWithInfo
  rw [h]

/-- Concrete instance of init_reads_only_metadata: two catalogs with the
same counts but different stored labels give equal adapter states. -/
theorem init_reads_only_metadata_witness :
    SvhnDataset.init (fun _ => ⟨[⟨[], 0⟩], []⟩) 1 1 none 64 none false =
      SvhnDataset.init (fun _ => ⟨[⟨[], 7⟩], []⟩) 1 1 none 64 none false :=
  init_reads_only_metadata (fun _ => ⟨[⟨[], 0⟩], []⟩)
    (fun _ => ⟨[⟨[], 7⟩], []⟩) 1 1 64 none none false rfl

/-- C7: the transform is pure and deterministic: applying it twice to the
same raw example gives equal results (in particular equal labels), and its
output depends on nothing in the adapter state beyond the construction-time
normalization flag. -/
theorem process_fn_pure (d1 d2 : SvhnDataset) (s : SplitValue)
    (e : RawExample) (h : d1.normalize_by_cifar = d2.normalize_by_cifar) :
    d1.create_process_example_fn s e = d1.create_process_example_fn s e ∧
    (d1.create_process_example_fn s e).lookup "labels" =
      (d1.create_process_example_fn s e).lookup "labels" ∧
    d1.create_process_example_fn s e = d2.create_process_example_fn s e := by
  refine ⟨rfl, rfl, ?_⟩
  unfold SvhnDataset.create_process_example_fn
  rw [h]

/-- Concrete instance of process_fn_pure: two adapters sharing the flag but
differing in every other recorded field transform one example identically. -/
theorem process_fn_pure_witness :
    (SvhnDataset.init (fun _ => ⟨[], []⟩) 1 2 none 64 none
        true).create_process_example_fn .TRAIN ⟨[[fun _ => 9]], 4⟩ =
      (SvhnDataset.init (fun _ => ⟨[⟨[], 0⟩], [⟨[], 0⟩]⟩) 3 4 (some 5) 6
          (some "gs") true).create_process_example_fn .TRAIN
        ⟨[[fun _ => 9]], 4⟩ :=
  (process_fn_pure (SvhnDataset.init (fun _ => ⟨[], []⟩) 1 2 none 64 none true)
    (SvhnDataset.init (fun _ => ⟨[⟨[], 0⟩], [⟨[], 0⟩]⟩) 3 4 (some 5) 6
      (some "gs") true) .TRAIN ⟨[[fun _ => 9]], 4⟩ rfl).2.2

/-- C8: create_process_example_fn ignores its split argument: the functions
returned for any two split values coincide on every raw example. -/
theorem process_fn_ignores_split (d : SvhnDataset) (s1 s2 : SplitValue)
    (e : RawExample) :
    d.create_process_example_fn s1 e = d.create_process_example_fn s2 e := rfl

/-- C9: for every raw example, split and flag value, the produced mapping
has exactly the keys features and labels, in that order. -/
theorem processed_example_keys (d : SvhnDataset) (s : SplitValue)
    (e : RawExample) :
    (d.create_process_example_fn s e).map Prod.fst = ["features", "labels"] :=
  rfl

/-- C10: the construction-time catalog query carries no storage-directory
argument: the recorded counts come from the default-location catalog
whatever data_dir is supplied, and two constructions differing only in
data_dir (or in what the environment serves at non-default locations,
given equal default catalogs) agree on every field except the recorded
data_dir itself. -/
theorem init_ignores_data_dir_for_metadata
    (env1 env2 : Option String → Catalog) (bs ebs npc : ℕ) (sbs : Option ℕ)
    (dd1 dd2 : Option String) (nf : Bool) (h : env1 none = env2 none) :
    (SvhnDataset.init env1 bs ebs sbs npc dd1 nf).num_validation_examples =
      ((env1 none).train.length : ℤ) - 50000 ∧
    (SvhnDataset.init env1 bs ebs sbs npc dd1 nf).num_test_examples =
      ((env1 none).test.length : ℤ) ∧
    SvhnDataset.init env1 bs ebs sbs npc dd1 nf =
      { SvhnDataset.init env2 bs ebs sbs npc dd2 nf with data_dir := dd1 } := by
  refine ⟨rfl, rfl, ?_⟩
  unfold SvhnDataset.init tfdsLoadWithInfo
  rw [h]

/-- Concrete instance of init_ignores_data_dir_for_metadata: a data_dir
override pointing at a bigger catalog leaves the recorded counts those of
the default-location catalog. -/
theorem init_ignores_data_dir_for_metadata_witness :
    (SvhnDataset.init
        (fun dir => if dir = none then ⟨[⟨[], 0⟩], []⟩ else ⟨[], [⟨[], 0⟩]⟩)
        1 1 none 64 (some "gs") false).num_validation_examples =
      ((1 : ℤ) - 50000) ∧
    (SvhnDataset.init
        (fun dir => if dir = none then ⟨[⟨[], 0⟩], []⟩ else ⟨[], [⟨[], 0⟩]⟩)
        1 1 none 64 (some "gs") false).num_test_examples = (0 : ℤ) := by
  have h := init_ignores_data_dir_for_metadata
    (fun dir => if dir = none then ⟨[⟨[], 0⟩], []⟩ else ⟨[], [⟨[], 0⟩]⟩)
    (fun dir => if dir = none then ⟨[⟨[], 0⟩], []⟩ else ⟨[], [⟨[], 0⟩]⟩)
    1 1 64 none (some "gs") none false rfl
  exact ⟨h.1, h.2.1⟩

/-- C4: with the flag set, the features tensor is the scaled image passed
through the per-channel normalization (image - mean) / std, and a pixel
whose post-scaling channels equal the mean vector normalizes to 0 in every
channel; with the flag unset the features tensor is the plain scaled image
(no subtraction or division), and for 8-bit input every feature value lies
in [0, 1]. -/
theorem transform_normalization (e : RawExample) :
    (example_parser_fn true e).lookup "features" =
      some (TensorValue.image (normalizeCifar (convert_image_dtype e.image))) ∧
    (example_parser_fn false e).lookup "features" =
      some (TensorValue.image (convert_image_dtype e.image)) ∧
    (∀ px : Fin 3 → ℚ, (∀ i, px i = cifarMean i) →
      normalizeCifar [[px]] = [[fun _ => 0]]) ∧
    ((∀ row ∈ e.image, ∀ px ∈ row, ∀ i, px i ≤ 255) →
      ∀ row ∈ convert_image_dtype e.image, ∀ q ∈ row, ∀ i : Fin 3,
        0 ≤ q i ∧ q i ≤ 1) := by
  refine ⟨rfl, rfl, fun px h => ?_, fun hb row hrow q hq i => ?_⟩
  · unfold normalizeCifar
    simp only [List.map_cons, List.map_nil]
    have hz : (fun i => (px i - cifarMean i) / cifarStd i) =
        fun _ : Fin 3 => (0 : ℚ) := by
      funext i
      rw [h i, sub_self, zero_div]
    rw [hz]
  · unfold convert_image_dtype at hrow
    obtain ⟨row0, hrow0, rfl⟩ := List.mem_map.mp hrow
    obtain ⟨px0, hpx0, rfl⟩ := List.mem_map.mp hq
    constructor
    · positivity
    · rw [div_le_one (by norm_num)]
      exact_mod_cast hb row0 hrow0 px0 hpx0 i

/-- An all-255 pixel, used to exercise the transform on concrete input. -/
def pix255 : Fin 3 → ℕ := fun _ => 255

/-- A one-pixel raw example with every channel at 255 and label 2. -/
def ex255 : RawExample := ⟨[[pix255]], 2⟩

/-- Concrete instance of transform_normalization: the mean-valued pixel
normalizes to zero in every channel, and the scaled all-255 pixel stays in
[0, 1]. -/
theorem transform_normalization_witness :
    normalizeCifar [[cifarMean]] = [[fun _ => 0]] ∧
    (0 ≤ (pix255 0 : ℚ) / 255 ∧ (pix255 0 : ℚ) / 255 ≤ 1) := by
  have h := transform_normalization ex255
  refine ⟨h.2.2.1 cifarMean (fun _ => rfl), ?_⟩
  have hb : ∀ row ∈ ex255.image, ∀ px ∈ row, ∀ i : Fin 3, px i ≤ 255 := by
    decide
  exact h.2.2.2 hb [fun i => (pix255 i : ℚ) / 255]
    (List.mem_singleton_self _) (fun i => (pix255 i : ℚ) / 255)
    (List.mem_singleton_self _) 0

/-- C5: the transform maps each 8-bit channel value v to exactly v / 255
(so 255 maps to 1 and 0 maps to 0), positionally aligned with the input
image, and casts the label into the signed 32-bit range. -/
theorem transform_scales_exactly (nf : Bool) (e : RawExample) :
    ((example_parser_fn nf e).lookup "labels" =
      some (TensorValue.intval (castInt32 e.label))) ∧
    (-(2 ^ 31) ≤ castInt32 e.label ∧ castInt32 e.label < 2 ^ 31) ∧
    ((example_parser_fn false e).lookup "features" =
      some (TensorValue.image (convert_image_dtype e.image))) ∧
    (∀ (r c : ℕ) (row : List (Fin 3 → ℕ)) (px : Fin 3 → ℕ),
      e.image[r]? = some row → row[c]? = some px →
      (((convert_image_dtype e.image)[r]?).bind (fun prow => prow[c]?)) =
        some (fun i => (px i : ℚ) / 255) ∧
      (∀ i : Fin 3, px i = 255 → (px i : ℚ) / 255 = 1) ∧
      (∀ i : Fin 3, px i = 0 → (px i : ℚ) / 255 = 0)) := by
  refine ⟨?_, ?_, ?_, fun r c row px h1 h2 => ⟨?_, fun i h => ?_, fun i h => ?_⟩⟩
  · cases nf <;> rfl
  · unfold castInt32
    omega
  · rfl
  · unfold convert_image_dtype
    rw [List.getElem?_map, h1]
    show (row.map _)[c]? = _
    rw [List.getElem?_map, h2]
    rfl
  · rw [h]
    norm_num
  · rw [h]
    norm_num

/-- Concrete instance of transform_scales_exactly on the one-pixel all-255
example: the label field holds the cast label and the pixel scales to
255 / 255 = 1. -/
theorem transform_scales_exactly_witness :
    ((example_parser_fn false ex255).lookup "labels" =
      some (TensorValue.intval (castInt32 2))) ∧
    (((convert_image_dtype ex255.image)[0]?).bind (fun prow => prow[0]?)) =
      some (fun i => (pix255 i : ℚ) / 255) ∧
    (pix255 0 : ℚ) / 255 = 1 := by
  have h := transform_scales_exactly false ex255
  have h4 := h.2.2.2 0 0 [pix255] pix255 rfl rfl
  exact ⟨h.1, h4.1, h4.2.1 0 rfl⟩

/-- A catalog whose train partition holds exactly 50000 examples. -/
def catBoundary : Catalog := ⟨List.replicate 50000 ⟨[], 0⟩, [⟨[], 1⟩]⟩

/-- The adapter constructed over catBoundary. -/
def dsBoundary : SvhnDataset :=
  SvhnDataset.init (fun _ => catBoundary) 1 1 none 64 none false

/-- Counterexample to C1 as stated: on a catalog whose train count is
exactly 50000 (so the computed validation count is 0), the TRAIN
ReadInstruction is built with bound -0 = 0 and selects the empty range
[0, 0) instead of the first 50000 examples, and the VAL instruction selects
the whole train partition instead of its empty tail. -/
theorem read_examples_boundary_cex :
    50000 ≤ catBoundary.train.length ∧
    dsBoundary.read_examples catBoundary .TRAIN = .ok [] ∧
    dsBoundary.read_examples catBoundary .VAL = .ok catBoundary.train ∧
    catBoundary.train.take
      (catBoundary.train.length - dsBoundary.num_validation_examples.toNat)
      ≠ [] ∧
    catBoundary.train.drop
      (catBoundary.train.length - dsBoundary.num_validation_examples.toNat)
      ≠ catBoundary.train := by
  have hvc : dsBoundary.num_validation_examples = 0 := by
    show ((List.replicate 50000 (⟨[], 0⟩ : RawExample)).length : ℤ) - 50000 = 0
    rw [List.length_replicate]
    norm_num
  have hlen : catBoundary.train.length = 50000 := List.length_replicate _ _
  refine ⟨le_of_eq hlen.symm, ?_, ?_, ?_, ?_⟩
  · show Except.ok
        (readInstruction catBoundary.train none
          (some (-dsBoundary.num_validation_examples))) = _
    rw [hvc, readInstruction_zero_to]
  · show Except.ok
        (readInstruction catBoundary.train
          (some (-dsBoundary.num_validation_examples)) none) = _
    rw [hvc, readInstruction_zero_from]
  · rw [hvc, Int.toNat_zero, Nat.sub_zero, List.take_length]
    intro habs
    have hL := congrArg List.length habs
    rw [hlen, List.length_nil] at hL
    omega
  · rw [hvc, Int.toNat_zero, Nat.sub_zero, List.drop_length]
    intro habs
    have hL := congrArg List.length habs.symm
    rw [List.length_nil, hlen] at hL
    omega

/-- C1 amended: for a catalog with train count T at least 50000, TRAIN and
VAL both succeed and concatenate in catalog order to exactly the original
train partition (no duplicate, no missing record), and TEST is the catalog
test partition entire; when T is strictly greater than 50000 the TRAIN
sequence is exactly the first T - validation_count examples and the VAL
sequence exactly the last validation_count examples, while at T = 50000
exactly, TRAIN is empty and VAL is the whole train partition (the -0
boundary of the absolute-offset instruction). -/
theorem read_examples_split_amended (cat : Catalog) (bs ebs npc : ℕ)
    (sbs : Option ℕ) (dd : Option String) (nf : Bool) (d : SvhnDataset)
    (hd : d = SvhnDataset.init (fun _ => cat) bs ebs sbs npc dd nf)
    (h : 50000 ≤ cat.train.length) :
    (∃ tr va, d.read_examples cat .TRAIN = .ok tr ∧
      d.read_examples cat .VAL = .ok va ∧ tr ++ va = cat.train) ∧
    d.read_examples cat .TEST = .ok cat.test ∧
    (50000 < cat.train.length →
      d.read_examples cat .TRAIN = .ok (cat.train.take
        (cat.train.length - d.num_validation_examples.toNat)) ∧
      d.read_examples cat .VAL = .ok (cat.train.drop
        (cat.train.length - d.num_validation_examples.toNat))) ∧
    (cat.train.length = 50000 →
      d.read_examples cat .TRAIN = .ok [] ∧
      d.read_examples cat .VAL = .ok cat.train) := by
  subst hd
  have hvc : (SvhnDataset.init (fun _ => cat) bs ebs sbs npc dd
      nf).num_validation_examples = (cat.train.length : ℤ) - 50000 := rfl
  rcases lt_or_eq_of_le h with hlt | heq
  · have h0 : (0 : ℤ) < (cat.train.length : ℤ) - 50000 := by
      omega
    have hT : (cat.train.length : ℤ) - 50000 ≤ (cat.train.length : ℤ) := by
      omega
    have htoNat : ((cat.train.length : ℤ) - 50000).toNat =
        cat.train.length - 50000 := by omega
    have hTr : (SvhnDataset.init (fun _ => cat) bs ebs sbs npc dd
        nf).read_examples cat .TRAIN = .ok (cat.train.take
          (cat.train.length - ((cat.train.length : ℤ) - 50000).toNat)) := by
      show Except.ok (readInstruction cat.train none (some _)) = _
      rw [hvc, readInstruction_neg_to cat.train _ h0 hT]
    have hVa : (SvhnDataset.init (fun _ => cat) bs ebs sbs npc dd
        nf).read_examples cat .VAL = .ok (cat.train.drop
          (cat.train.length - ((cat.train.length : ℤ) - 50000).toNat)) := by
      show Except.ok (readInstruction cat.train (some _) none) = _
      rw [hvc, readInstruction_neg_from cat.train _ h0 hT]
    refine ⟨⟨_, _, hTr, hVa, List.take_append_drop _ _⟩, rfl,
      fun _ => ⟨?_, ?_⟩, fun habs => absurd habs (by omega)⟩
    · rw [hTr, hvc]
    · rw [hVa, hvc]
  · have hvc0 : (SvhnDataset.init (fun _ => cat) bs ebs sbs npc dd
        nf).num_validation_examples = 0 := by
      rw [hvc, ← heq]
      norm_num
    have hTr : (SvhnDataset.init (fun _ => cat) bs ebs sbs npc dd
        nf).read_examples cat .TRAIN = .ok [] := by
      show Except.ok (readInstruction cat.train none (some _)) = _
      rw [hvc0, readInstruction_zero_to]
    have hVa : (SvhnDataset.init (fun _ => cat) bs ebs sbs npc dd
        nf).read_examples cat .VAL = .ok cat.train := by
      show Except.ok (readInstruction cat.train (some _) none) = _
      rw [hvc0, readInstruction_zero_from]
    exact ⟨⟨[], cat.train, hTr, hVa, rfl⟩, rfl,
      fun habs => absurd habs (by omega), fun _ => ⟨hTr, hVa⟩⟩

/-- A catalog whose train partition holds 50001 examples. -/
def catAbove : Catalog := ⟨List.replicate 50001 ⟨[], 0⟩, [⟨[], 1⟩]⟩

/-- The adapter constructed over catAbove. -/
def dsAbove : SvhnDataset :=
  SvhnDataset.init (fun _ => catAbove) 1 1 none 64 none false

/-- Concrete instance of read_examples_split_amended on a catalog of 50001
train examples: the exact take/drop offsets and the entire test partition. -/
theorem read_examples_split_amended_witness :
    dsAbove.read_examples catAbove .TRAIN = .ok (catAbove.train.take
      (catAbove.train.length - dsAbove.num_validation_examples.toNat)) ∧
    dsAbove.read_examples catAbove .VAL = .ok (catAbove.train.drop
      (catAbove.train.length - dsAbove.num_validation_examples.toNat)) ∧
    dsAbove.read_examples catAbove .TEST = .ok catAbove.test := by
  have h := read_examples_split_amended catAbove 1 1 64 none none false
    dsAbove rfl (by rw [show catAbove.train = List.replicate 50001 ⟨[], 0⟩
      from rfl, List.length_replicate]; norm_num)
  have h3 := h.2.2.1 (by rw [show catAbove.train = List.replicate 50001
    ⟨[], 0⟩ from rfl, List.length_replicate]; norm_num)
  exact ⟨h3.1, h3.2, h.2.1⟩

end UncertaintyBaselines
